import Mathlib

/-!
Shallow embedding of `find_growth_stocks.py` (a growth-stock screener).

Numbers are modeled as rationals.  A pandas cell that may be `NaN` is
modeled as `Option ℚ`, with `none` standing for `NaN`; the Python
comparison semantics `NaN < x = False` and `pd.notna NaN = False` are
made explicit at each use site.  Exceptions that escape a handler are
modeled by an explicit `raised` outcome.
-/

namespace FindGrowthStocks

attribute [local semireducible] Rat.mul Rat.sub Rat.add Rat.inv

/-- A calendar date, as produced by `pd.to_datetime` on the date column
(line 30 of the source).  Comparison is lexicographic. -/
structure Date where
  year : Int
  month : Nat
  day : Nat
deriving DecidableEq

/-- Date order used by `sort_values` on the date column. -/
def Date.le (a b : Date) : Bool :=
  decide (a.year < b.year) ||
    (decide (a.year = b.year) &&
      (decide (a.month < b.month) ||
        (decide (a.month = b.month) && decide (a.day ≤ b.day))))

/-- `dt.quarter` (line 34): the fiscal quarter of a date, 1 to 4. -/
def Date.quarter (d : Date) : Nat := (d.month - 1) / 3 + 1

/-- One row of a per-symbol fundamentals file: date, revenue, operating
margin.  `none` models a `NaN` cell. -/
structure FundRecord where
  date : Date
  revenue : Option ℚ
  op_margin : Option ℚ
deriving DecidableEq

/-- The `(year, quarter)` key used by `df.set_index(["year", "quarter"])`
(line 40); both components are derived from the date (lines 33 and 34). -/
def fqKey (r : FundRecord) : Int × Nat := (r.date.year, r.date.quarter)

/-- `df.loc[key]` over the full record set: the list of rows whose
`(year, quarter)` key matches.  An empty result models a `KeyError`;
two or more results model the duplicate-index case, in which `df.loc`
returns a DataFrame instead of a single row. -/
def lookupKey (records : List FundRecord) (k : Int × Nat) : List FundRecord :=
  records.filter (fun r => decide (fqKey r = k))

/-- Descending-by-date order on fundamentals rows, for
`df.sort_values("날짜", ascending=False)` (line 31).  Tie order among
rows with identical dates is not observable in any property below. -/
def dateGE (a b : FundRecord) : Prop := Date.le b.date a.date = true

instance : DecidableRel dateGE :=
  fun a b => inferInstanceAs (Decidable (Date.le b.date a.date = true))

/-- The record set sorted by date, most recent first (line 31). -/
def sortByDateDesc (records : List FundRecord) : List FundRecord :=
  records.insertionSort dateGE

/-- Outcome of `get_annual_growth`:
* `raised` — an exception other than `KeyError` escapes the function
  (this happens when a `(year, quarter)` key is duplicated: `df.loc`
  then yields a DataFrame and the truth test of a `pd.notna` Series
  raises `ValueError`, which line 70 does not catch);
* `noData` — the `return None, None, None` paths (lines 37 and 71);
* `ok` — the normal return (line 73): the revenue-growth list, the
  margin-growth list and the most recent raw revenue and margin. -/
inductive GrowthOutcome where
  | raised
  | noData
  | ok (rev_growths opm_growths : List ℚ)
      (recent_revenue recent_op_margin : Option ℚ)
deriving DecidableEq

/-- Python's `abs` on a rational value, written on the numerator sign
so that it evaluates by kernel reduction. -/
def pyAbs (q : ℚ) : ℚ := if q.num < 0 then -q else q

/-- Lines 59-61: the revenue-growth value appended for one anchor
quarter, if any.  Requires both revenues non-NaN and prior revenue
nonzero; the value is `100 * (curr - prev) / abs prev`. -/
def revGrowthEntry (curr prev : FundRecord) : Option ℚ :=
  match curr.revenue, prev.revenue with
  | some c, some p => if p ≠ 0 then some (100 * (c - p) / pyAbs p) else none
  | _, _ => none

/-- Lines 63-68: the margin-growth value appended for one anchor
quarter, if any.  Requires both margins non-NaN and strictly positive;
the value is `100 * (curr - prev) / |prev|`. -/
def opmGrowthEntry (curr prev : FundRecord) : Option ℚ :=
  match curr.op_margin, prev.op_margin with
  | some c, some p => if 0 < c ∧ 0 < p then some (100 * (c - p) / pyAbs p) else none
  | _, _ => none

/-- The loop of lines 46-71, one step per anchor quarter.  `all` is the
full record set (the lookup index), the first list argument the
remaining anchors, `i` the loop index, then the two growth
accumulators and the recent revenue/margin cells (set at `i = 0`,
lines 55-57).

Branches follow the Python evaluation order exactly:
* anchor key unmatched (impossible for a real anchor, kept for
  faithfulness): `KeyError` at line 52, `noData`;
* prior-year key unmatched: `KeyError` at line 53, `noData`;
* both keys matched once: scalar path, lines 55-68;
* prior-year key matched more than once: `prev` is a DataFrame; the
  guard on line 59 short-circuits, so a `ValueError` is raised at the
  first `pd.notna(prev[...])` reached, which happens iff the anchor's
  revenue or margin is itself non-NaN; with both NaN the guards are
  `False` and the loop continues, appending nothing;
* anchor key matched more than once: `curr` is a DataFrame and
  `pd.notna(curr["revenue"])` on line 59 already raises. -/
def growthLoop (all : List FundRecord) :
    List FundRecord → Nat → List ℚ → List ℚ → Option ℚ → Option ℚ →
      GrowthOutcome
  | [], _, revs, opms, rRev, rOpm => .ok revs opms rRev rOpm
  | a :: rest, i, revs, opms, rRev, rOpm =>
    match lookupKey all (fqKey a),
        lookupKey all (a.date.year - 1, a.date.quarter) with
    | [], _ => .noData
    | _, [] => .noData
    | [curr], [prev] =>
      growthLoop all rest (i + 1)
        (revs ++ (revGrowthEntry curr prev).toList)
        (opms ++ (opmGrowthEntry curr prev).toList)
        (if i = 0 then curr.revenue else rRev)
        (if i = 0 then curr.op_margin else rOpm)
    | [curr], _ :: _ :: _ =>
      if curr.revenue.isSome || curr.op_margin.isSome then .raised
      else
        growthLoop all rest (i + 1) revs opms
          (if i = 0 then curr.revenue else rRev)
          (if i = 0 then curr.op_margin else rOpm)
    | _ :: _ :: _, _ => .raised

/-- `get_annual_growth(df, required_quarters=2)` (lines 29-73): fewer
records than `required_quarters` is `NoData` (lines 36-37); otherwise
the loop runs over the first `required_quarters` rows by descending
date (line 39), with the `(year, quarter)` lookup built over the full
record set (line 40). -/
def get_annual_growth (records : List FundRecord)
    (required_quarters : Nat := 2) : GrowthOutcome :=
  if records.length < required_quarters then .noData
  else
    growthLoop records ((sortByDateDesc records).take required_quarters)
      0 [] [] none none

/-- The resolved command-line configuration (lines 19-26). -/
structure Config where
  pergro_revenue : ℚ
  pergro_op_margin : ℚ
  num_result : Nat
  revenue_limit : ℚ
  op_margin_limit : ℚ
deriving DecidableEq

/-- The reasons for which `main` skips a symbol, one per `print`/`continue`
site (lines 104-106, 113-115, 120-122, 123-125, 131-145, 156-158). -/
inductive SkipReason where
  | marketCapNotFound
  | insufficientFundamentals
  | recentRevenueBelowLimit
  | recentOpMarginBelowLimit
  | bothMetricsFailed
  | onlyRevenueFailed
  | onlyOpMarginFailed
  | noGrowthData
  | processingError
deriving DecidableEq

/-- The Python comparison `val < limit` where `val` is a float cell that
may be `NaN` (`none`): `NaN < x` is `False`.  By the time lines 120-125
run, the recent values are float cells, never Python `None` (they are
assigned on lines 55-57 in every run that returns normally), so the
`is not None` guards on lines 120 and 123 are always true and only the
float comparison decides. -/
def floatLt (x : Option ℚ) (limit : ℚ) : Bool :=
  match x with
  | some v => decide (v < limit)
  | none => false

/-- `rev_ok` / `opm_ok` (lines 127-128): the growth list is nonempty,
has exactly 2 entries, and every entry strictly exceeds the threshold. -/
def growthOk (gs : List ℚ) (thr : ℚ) : Bool :=
  !gs.isEmpty && gs.length == 2 && gs.all (fun g => decide (g > thr))

/-- The availability-based decision table (lines 130-145).  The
dispatch tests nonemptiness (Python list truthiness), while the
branch tests reuse `rev_ok` / `opm_ok`, which require exactly 2
entries. -/
def growthDecision (revs opms : List ℚ) (cfg : Config) : Option SkipReason :=
  let rev_ok := growthOk revs cfg.pergro_revenue
  let opm_ok := growthOk opms cfg.pergro_op_margin
  if !revs.isEmpty && !opms.isEmpty then
    if !(rev_ok && opm_ok) then some .bothMetricsFailed else none
  else if !revs.isEmpty then
    if !rev_ok then some .onlyRevenueFailed else none
  else if !opms.isEmpty then
    if !opm_ok then some .onlyOpMarginFailed else none
  else some .noGrowthData

/-- The whole filtering stage of `main` (lines 120-145): the two
absolute floors first, then the growth decision table.  `none` means
the symbol is accepted; `some r` the reason it is skipped. -/
def thresholdFilter (revs opms : List ℚ) (rRev rOpm : Option ℚ)
    (cfg : Config) : Option SkipReason :=
  if floatLt rRev cfg.revenue_limit then some .recentRevenueBelowLimit
  else if floatLt rOpm cfg.op_margin_limit then some .recentOpMarginBelowLimit
  else growthDecision revs opms cfg

/-- One row of a per-symbol market-cap file. -/
structure MarketCapRecord where
  date : Date
  market_cap : ℚ
deriving DecidableEq

/-- Descending-by-date order on market-cap rows (line 78). -/
def mcDateGE (a b : MarketCapRecord) : Prop := Date.le b.date a.date = true

instance : DecidableRel mcDateGE :=
  fun a b => inferInstanceAs (Decidable (Date.le b.date a.date = true))

/-- `get_latest_market_cap` (lines 76-79): sort by date descending and
take the first row's market cap.  `none` models the `IndexError` that
`df.iloc[0]` raises on an empty table (caught by `main`, line 156). -/
def get_latest_market_cap (records : List MarketCapRecord) : Option ℚ :=
  match records.insertionSort mcDateGE with
  | [] => none
  | r :: _ => some r.market_cap

/-- Everything `main` knows about one symbol before processing it: the
parsed fundamentals rows and, when the `{symbol}_d.csv` file exists,
the parsed market-cap rows (`none` models a missing file, line 104). -/
structure SymbolData where
  symbol : String
  fs : List FundRecord
  ms : Option (List MarketCapRecord)
deriving DecidableEq

/-- One row appended to `results` (lines 149-154): growth entries are
carried over positionally, missing ones as `NaN` (`none`). -/
structure ResultEntry where
  symbol : String
  rev_g1 : Option ℚ
  rev_g2 : Option ℚ
  opm_g1 : Option ℚ
  opm_g2 : Option ℚ
  market_cap : ℚ
deriving DecidableEq

/-- The per-symbol body of `main`'s loop (lines 101-158), in source
order: the market-cap file existence check (line 104) comes first;
then `get_annual_growth` (line 112), whose `NoData` is the
"insufficient financial data" skip (line 113); then the floors and the
decision table; the most recent market cap is only retrieved (line
147) for symbols that passed everything.  Any exception inside the
`try` block — a `ValueError` escaping `get_annual_growth` or the
`IndexError` of `get_latest_market_cap` — is caught on line 156 and
becomes a skip. -/
def processSymbol (cfg : Config) (s : SymbolData) :
    Except SkipReason ResultEntry :=
  match s.ms with
  | none => .error .marketCapNotFound
  | some ms =>
    match get_annual_growth s.fs with
    | .raised => .error .processingError
    | .noData => .error .insufficientFundamentals
    | .ok revs opms rRev rOpm =>
      match thresholdFilter revs opms rRev rOpm cfg with
      | some r => .error r
      | none =>
        match get_latest_market_cap ms with
        | none => .error .processingError
        | some mc =>
          .ok { symbol := s.symbol
                rev_g1 := revs[0]?, rev_g2 := revs[1]?
                opm_g1 := opms[0]?, opm_g2 := opms[1]?
                market_cap := mc }

instance {ε α : Type} [DecidableEq ε] [DecidableEq α] :
    DecidableEq (Except ε α) := fun x y =>
  match x, y with
  | .ok a, .ok b =>
    if h : a = b then .isTrue (by rw [h]) else .isFalse (fun hh => h (Except.ok.inj hh))
  | .error e, .error f =>
    if h : e = f then .isTrue (by rw [h]) else .isFalse (fun hh => h (Except.error.inj hh))
  | .ok _, .error _ => .isFalse (fun hh => Except.noConfusion hh)
  | .error _, .ok _ => .isFalse (fun hh => Except.noConfusion hh)

/-- The ranking order (line 160): by market cap, ascending. -/
def capLE (a b : ResultEntry) : Prop := a.market_cap ≤ b.market_cap

instance : DecidableRel capLE :=
  fun a b => inferInstanceAs (Decidable (a.market_cap ≤ b.market_cap))

instance : IsTotal ResultEntry capLE :=
  ⟨fun a b => le_total a.market_cap b.market_cap⟩

instance : IsTrans ResultEntry capLE :=
  ⟨fun _ _ _ h h' => le_trans h h'⟩

/-- Lines 160-163: `results.sort(key=lambda x: x[-1])` then
`results[:args.num_result]`.  Python's `list.sort` is a stable sort;
over the total order on rational market caps every stable sort yields
the same list, so insertion sort models it exactly. -/
def rankResults (results : List ResultEntry) (n : Nat) : List ResultEntry :=
  (results.insertionSort capLE).take n

/-- The `results` list built by `main`'s loop: the accepted entry of
each symbol, in symbol order; skipped symbols contribute nothing. -/
def acceptedEntries (cfg : Config) (symbols : List SymbolData) :
    List ResultEntry :=
  symbols.filterMap (fun s => (processSymbol cfg s).toOption)

/-- The full screening pass (lines 92-163): process every symbol,
then rank and truncate. -/
def runScreen (cfg : Config) (symbols : List SymbolData) : List ResultEntry :=
  rankResults (acceptedEntries cfg symbols) cfg.num_result

/-- Rounding to two decimal places, as the `:.2f` output format does
(for the values in Scenario A no rounding tie occurs, so half-even and
half-up agree). -/
def round2 (q : ℚ) : ℚ := (⌊100 * q + 1 / 2⌋ : ℤ) / 100

/-- Scenario A record set: quarters 2024Q2, 2024Q1, 2023Q2, 2023Q1 with
the spec's revenues and margins. -/
def recordsA : List FundRecord :=
  [⟨⟨2024, 6, 30⟩, some 120, some 20⟩,
   ⟨⟨2023, 6, 30⟩, some 100, some 15⟩,
   ⟨⟨2024, 3, 31⟩, some 110, some 18⟩,
   ⟨⟨2023, 3, 31⟩, some 90, some 10⟩]

/-- Scenario A configuration: growth thresholds 15 and 20, floors 0. -/
def cfgA : Config :=
  { pergro_revenue := 15, pergro_op_margin := 20, num_result := 10
    revenue_limit := 0, op_margin_limit := 0 }

/-- Scenario B configuration: as `cfgA` but margin-growth threshold 50. -/
def cfgB : Config := { cfgA with pergro_op_margin := 50 }

/-- A market-cap table for the Scenario A symbol. -/
def msA : List MarketCapRecord := [⟨⟨2024, 7, 1⟩, 500⟩]

/-- The Scenario A symbol as `main` sees it. -/
def symA : SymbolData := { symbol := "A", fs := recordsA, ms := some msA }

/-- Record set refuting the universal form of the NoData claim: the
anchors are 2024Q2 and 2024Q1; the key (2023, 2) is duplicated and the
key (2023, 1) — the prior year of the second anchor — is absent.  At
`i = 0` the prior-year lookup returns two rows and the anchor's
revenue is non-NaN, so the run raises instead of returning NoData. -/
def recordsDup : List FundRecord :=
  [⟨⟨2024, 6, 30⟩, some 120, some 20⟩,
   ⟨⟨2024, 3, 31⟩, some 110, some 18⟩,
   ⟨⟨2023, 6, 30⟩, some 100, some 15⟩,
   ⟨⟨2023, 6, 29⟩, some 99, some 14⟩]

/-- Record set for the NoData witness: three quarters, unique keys, the
second anchor's prior-year key (2023, 1) absent. -/
def recordsMissingPrior : List FundRecord :=
  [⟨⟨2024, 6, 30⟩, some 120, some 20⟩,
   ⟨⟨2024, 3, 31⟩, some 110, some 18⟩,
   ⟨⟨2023, 6, 30⟩, some 100, some 15⟩]

/-- A symbol whose data makes the per-symbol body raise an unexpected
exception: its fundamentals have a duplicated `(year, quarter)` key, so
`get_annual_growth` raises a `ValueError` caught by line 156. -/
def symBad : SymbolData := { symbol := "B", fs := recordsDup, ms := some msA }

/-! ### Helper lemmas -/

/-- `pyAbs` is the absolute value. -/
theorem pyAbs_eq_abs (q : ℚ) : pyAbs q = |q| := by
  rw [pyAbs]
  rcases lt_or_le q 0 with h | h
  · rw [if_pos (Rat.num_neg.2 h), abs_of_neg h]
  · rw [if_neg (not_lt.2 (Rat.num_nonneg.2 h)), abs_of_nonneg h]

/-- Under pairwise-distinct `(year, quarter)` keys, every key lookup
returns at most one row. -/
theorem length_lookupKey_le_one {records : List FundRecord}
    (h : (records.map fqKey).Nodup) (k : Int × Nat) :
    (lookupKey records k).length ≤ 1 := by
  induction records with
  | nil => simp [lookupKey]
  | cons r rs ih =>
    rw [List.map_cons, List.nodup_cons] at h
    by_cases hk : fqKey r = k
    · have hnil : lookupKey rs k = [] := by
        rw [lookupKey, List.filter_eq_nil_iff]
        intro a ha hdec
        rw [decide_eq_true_iff] at hdec
        exact h.1 (by rw [hk, ← hdec]; exact List.mem_map_of_mem fqKey ha)
      rw [lookupKey, List.filter_cons, if_pos (by simpa using hk)]
      rw [lookupKey] at hnil
      simp [hnil]
    · rw [lookupKey, List.filter_cons, if_neg (by simpa using hk)]
      exact ih h.2

/-- Under pairwise-distinct keys, a lookup is empty or a singleton. -/
theorem lookupKey_eq_nil_or_singleton {records : List FundRecord}
    (h : (records.map fqKey).Nodup) (k : Int × Nat) :
    lookupKey records k = [] ∨ ∃ r, lookupKey records k = [r] := by
  have hlen := length_lookupKey_le_one h k
  rcases hl : lookupKey records k with _ | ⟨r, _ | ⟨r', rest⟩⟩
  · exact Or.inl rfl
  · exact Or.inr ⟨r, rfl⟩
  · rw [hl] at hlen; simp at hlen

/-- Every record is found by the lookup at its own key. -/
theorem self_mem_lookupKey {a : FundRecord} {records : List FundRecord}
    (ha : a ∈ records) : a ∈ lookupKey records (fqKey a) :=
  List.mem_filter.2 ⟨ha, by simp⟩

/-- If some remaining anchor's prior-year key is absent and the keys
are pairwise distinct, the loop of lines 46-71 ends in NoData. -/
theorem growthLoop_eq_noData (all : List FundRecord)
    (hnd : (all.map fqKey).Nodup) :
    ∀ (anchors : List FundRecord) (i : Nat) (revs opms : List ℚ)
      (rRev rOpm : Option ℚ),
      (∀ x ∈ anchors, x ∈ all) →
      (∃ a ∈ anchors, lookupKey all (a.date.year - 1, a.date.quarter) = []) →
      growthLoop all anchors i revs opms rRev rOpm = .noData := by
  intro anchors
  induction anchors with
  | nil =>
    intro i revs opms rRev rOpm _ hex
    rcases hex with ⟨a, ha, _⟩
    cases ha
  | cons a rest ih =>
    intro i revs opms rRev rOpm hsub hex
    have hcur : ∃ c, lookupKey all (fqKey a) = [c] := by
      rcases lookupKey_eq_nil_or_singleton hnd (fqKey a) with hnil | hs
      · exact absurd (hnil ▸ self_mem_lookupKey (hsub a (by simp)))
          (List.not_mem_nil a)
      · exact hs
    rcases hcur with ⟨c, hc⟩
    rcases lookupKey_eq_nil_or_singleton hnd
        (a.date.year - 1, a.date.quarter) with hp | ⟨p, hp⟩
    · simp only [growthLoop, hc, hp]
    · simp only [growthLoop, hc, hp]
      apply ih (i + 1) _ _ _ _ (fun x hx => hsub x (List.mem_cons_of_mem a hx))
      rcases hex with ⟨b, hb, hbe⟩
      rcases List.mem_cons.1 hb with hba | hbr
      · subst hba
        rw [hbe] at hp
        cases hp
      · exact ⟨b, hbr, hbe⟩

/-- The growth-only decision table never yields a floor rejection. -/
theorem growthDecision_ne_floor (revs opms : List ℚ) (cfg : Config)
    (r : SkipReason)
    (hr : r = .recentRevenueBelowLimit ∨ r = .recentOpMarginBelowLimit) :
    growthDecision revs opms cfg ≠ some r := by
  unfold growthDecision
  rcases hr with h | h <;> subst h <;> (repeat' split) <;> simp

/-- `Except.toOption` returns `some` exactly on `ok`. -/
theorem except_toOption_eq_some {ε α : Type} (x : Except ε α) (b : α) :
    x.toOption = some b ↔ x = .ok b := by
  cases x <;> simp [Except.toOption]

/-! ### Claim theorems -/

/-- C1, as stated, is false on the code: with thresholds 15/20 and no
floors, `revenue_growth = [20, 25]` is available (2 entries, all above
threshold) and `margin_growth = [30]` is not available (1 entry), yet
the symbol is rejected — the partially computed margin metric is not
ignored, because the dispatch on lines 131-145 tests nonemptiness. -/
theorem C1_counterexample :
    (([20, 25] : List ℚ).length = 2)
    ∧ ((([20, 25] : List ℚ).all fun g => decide (cfgA.pergro_revenue < g)) = true)
    ∧ (([30] : List ℚ).length ≠ 2)
    ∧ thresholdFilter [20, 25] [30] none none cfgA = some .bothMetricsFailed := by
  decide

/-- C1 (amended): the decision table of lines 127-145, with
availability meaning nonemptiness: the symbol passes the growth stage
iff at least one growth list is nonempty and every nonempty growth
list has exactly 2 entries, all strictly above its threshold. -/
theorem C1_decision_table (revs opms : List ℚ) (cfg : Config) :
    growthDecision revs opms cfg = none ↔
      (revs ≠ [] ∨ opms ≠ []) ∧
        (revs ≠ [] → revs.length = 2 ∧ ∀ g ∈ revs, cfg.pergro_revenue < g) ∧
        (opms ≠ [] → opms.length = 2 ∧ ∀ g ∈ opms, cfg.pergro_op_margin < g) := by
  cases revs with
  | nil =>
    cases opms with
    | nil => simp [growthDecision, growthOk]
    | cons b bs => simp [growthDecision, growthOk, List.all_eq_true, and_assoc]
  | cons a as =>
    cases opms with
    | nil => simp [growthDecision, growthOk, List.all_eq_true, and_assoc]
    | cons b bs => simp [growthDecision, growthOk, List.all_eq_true, and_assoc]

/-- Witness for C1: two passing revenue entries and no margin entries
is accepted. -/
theorem C1_witness : growthDecision [20, 25] [] cfgA = none :=
  (C1_decision_table [20, 25] [] cfgA).2 (by decide)

/-- C2, as stated, is false on the code: in `recordsDup` the second
anchor 2024Q1 has no prior-year record (key (2023, 1) is absent), yet
the result is not NoData — the key (2023, 2) is duplicated, so at
`i = 0` `df.loc` returns a DataFrame and the guard on line 59 raises a
`ValueError` that line 70 does not catch. -/
theorem C2_counterexample :
    2 ≤ recordsDup.length
    ∧ (⟨⟨2024, 3, 31⟩, some 110, some 18⟩ : FundRecord) ∈
        (sortByDateDesc recordsDup).take 2
    ∧ lookupKey recordsDup ((2024 : Int) - 1, 1) = []
    ∧ get_annual_growth recordsDup = .raised
    ∧ get_annual_growth recordsDup ≠ .noData := by
  decide

/-- C2 (amended): for every record set with at least 2 records and
pairwise-distinct `(year, quarter)` keys, if the prior-year key of
either anchor quarter is absent from the lookup, `get_annual_growth`
returns NoData — both growth lists absent, never partially populated. -/
theorem C2_noData_on_missing_prior (records : List FundRecord)
    (hnd : (records.map fqKey).Nodup) (hlen : 2 ≤ records.length)
    (a : FundRecord) (ha : a ∈ (sortByDateDesc records).take 2)
    (habs : lookupKey records (a.date.year - 1, a.date.quarter) = []) :
    get_annual_growth records = .noData := by
  rw [get_annual_growth, if_neg (by omega)]
  refine growthLoop_eq_noData records hnd _ 0 [] [] none none
    (fun x hx => ?_) ⟨a, ha, habs⟩
  have h1 := List.mem_of_mem_take hx
  rw [sortByDateDesc] at h1
  exact (List.mem_insertionSort dateGE).1 h1

/-- Witness for C2: three unique-key quarters whose second anchor
2024Q1 has no 2023Q1 counterpart give NoData. -/
theorem C2_witness : get_annual_growth recordsMissingPrior = .noData :=
  C2_noData_on_missing_prior recordsMissingPrior (by decide) (by decide)
    ⟨⟨2024, 3, 31⟩, some 110, some 18⟩ (by decide) (by decide)

/-- C3: fewer than 2 fundamental records give NoData and the symbol
never reaches the accepted results, whatever the configuration. -/
theorem C3_insufficient_records (cfg : Config) (s : SymbolData)
    (h : s.fs.length < 2) :
    get_annual_growth s.fs = .noData ∧ ∀ e, processSymbol cfg s ≠ .ok e := by
  have h1 : get_annual_growth s.fs = .noData := by
    rw [get_annual_growth, if_pos h]
  refine ⟨h1, fun e => ?_⟩
  cases hms : s.ms with
  | none => simp [processSymbol, hms]
  | some ms => simp [processSymbol, hms, h1]

/-- Witness for C3 at the empty record set. -/
theorem C3_witness : get_annual_growth ([] : List FundRecord) = .noData :=
  (C3_insufficient_records cfgA ⟨"Y", [], some []⟩ (by decide)).1

/-- C4: per anchor quarter, the revenue entry exists iff both revenues
are present and the prior one is nonzero; the margin entry exists iff
both margins are present and strictly positive; each entry equals
`100 * (curr - prev) / |prev|`; the two conditions read disjoint
fields, hence are independent. -/
theorem C4_growth_entry_conditions (curr prev : FundRecord) :
    ((revGrowthEntry curr prev).isSome = true ↔
      curr.revenue.isSome = true ∧ prev.revenue.isSome = true ∧
        prev.revenue ≠ some 0)
    ∧ ((opmGrowthEntry curr prev).isSome = true ↔
      ∃ c p, curr.op_margin = some c ∧ prev.op_margin = some p ∧
        0 < c ∧ 0 < p)
    ∧ (∀ c p, curr.revenue = some c → prev.revenue = some p → p ≠ 0 →
        revGrowthEntry curr prev = some (100 * (c - p) / |p|))
    ∧ (∀ c p, curr.op_margin = some c → prev.op_margin = some p →
        0 < c → 0 < p →
        opmGrowthEntry curr prev = some (100 * (c - p) / |p|)) := by
  refine ⟨?_, ?_, ?_, ?_⟩
  · rcases hc : curr.revenue with _ | c <;> rcases hp : prev.revenue with _ | p <;>
      simp [revGrowthEntry, hc, hp]
  · rcases hc : curr.op_margin with _ | c <;> rcases hp : prev.op_margin with _ | p <;>
      simp [opmGrowthEntry, hc, hp]
  · intro c p hcc hpp h0
    simp [revGrowthEntry, hcc, hpp, h0, pyAbs_eq_abs]
  · intro c p hcc hpp h1 h2
    simp [opmGrowthEntry, hcc, hpp, h1, h2, pyAbs_eq_abs]

/-- Witness for C4: the 2024Q2 anchor of Scenario A yields revenue
growth 20. -/
theorem C4_witness :
    revGrowthEntry ⟨⟨2024, 6, 30⟩, some 120, some 20⟩
      ⟨⟨2023, 6, 30⟩, some 100, some 15⟩ = some 20 := by
  have h := (C4_growth_entry_conditions ⟨⟨2024, 6, 30⟩, some 120, some 20⟩
    ⟨⟨2023, 6, 30⟩, some 100, some 15⟩).2.2.1 120 100 rfl rfl (by norm_num)
  rw [h]
  norm_num

/-- C5: the absolute floors of lines 120-125: a present recent revenue
below the revenue limit rejects with the revenue reason; otherwise a
present recent margin below the margin limit rejects with the margin
reason — in both cases before the growth decision table, and on the
raw (possibly negative) values. -/
theorem C5_absolute_floors (revs opms : List ℚ) (rRev rOpm : Option ℚ)
    (cfg : Config) :
    (∀ v, rRev = some v → v < cfg.revenue_limit →
      thresholdFilter revs opms rRev rOpm cfg = some .recentRevenueBelowLimit)
    ∧ (∀ w, floatLt rRev cfg.revenue_limit = false → rOpm = some w →
        w < cfg.op_margin_limit →
        thresholdFilter revs opms rRev rOpm cfg = some .recentOpMarginBelowLimit) := by
  constructor
  · intro v hv hlt
    simp [thresholdFilter, floatLt, hv, hlt]
  · intro w hfr hw hlt
    rw [thresholdFilter, if_neg (by simp [hfr])]
    simp [floatLt, hw, hlt]

/-- Witness for C5: a raw negative recent margin below the zero floor
is rejected with the margin reason. -/
theorem C5_witness :
    thresholdFilter [] [] none (some (-5)) cfgA = some .recentOpMarginBelowLimit :=
  (C5_absolute_floors [] [] none (some (-5)) cfgA).2 (-5) rfl rfl (by decide)

/-- C7: Scenario A: the four quarters give revenue growth [20, 200/9]
(20.00 and 22.22 to two decimals) and margin growth [100/3, 80] (33.33
and 80.00); all exceed thresholds 15/20, so the symbol is accepted;
with margin threshold 50 instead (Scenario B) it is rejected on the
decision-table branch where both metrics are nonempty. -/
theorem C7_scenario :
    get_annual_growth recordsA =
      .ok [20, 200 / 9] [100 / 3, 80] (some 120) (some 20)
    ∧ round2 20 = 20 ∧ round2 (200 / 9) = 2222 / 100
    ∧ round2 (100 / 3) = 3333 / 100 ∧ round2 80 = 80
    ∧ thresholdFilter [20, 200 / 9] [100 / 3, 80] (some 120) (some 20) cfgA = none
    ∧ processSymbol cfgA symA =
        .ok ⟨"A", some 20, some (200 / 9), some (100 / 3), some 80, 500⟩
    ∧ (100 / 3 : ℚ) < 50
    ∧ thresholdFilter [20, 200 / 9] [100 / 3, 80] (some 120) (some 20) cfgB =
        some .bothMetricsFailed
    ∧ processSymbol cfgB symA = .error .bothMetricsFailed := by
  decide

/-- C10: a NaN recent revenue or margin bypasses the corresponding
absolute floor (`NaN < limit` is false), so with both recents NaN the
filter is exactly the growth decision table, for any floor values. -/
theorem C10_nan_bypasses_floors (revs opms : List ℚ) (rOpm : Option ℚ)
    (cfg : Config) :
    thresholdFilter revs opms none rOpm cfg ≠ some .recentRevenueBelowLimit
    ∧ (∀ rRev, thresholdFilter revs opms rRev none cfg ≠
        some .recentOpMarginBelowLimit)
    ∧ thresholdFilter revs opms none none cfg = growthDecision revs opms cfg := by
  refine ⟨?_, fun rRev => ?_, ?_⟩
  · simp only [thresholdFilter, floatLt, Bool.false_eq_true, if_false]
    split
    · simp
    · exact growthDecision_ne_floor revs opms cfg _ (Or.inl rfl)
  · simp only [thresholdFilter, floatLt]
    split
    · simp
    · simp only [Bool.false_eq_true, if_false]
      exact growthDecision_ne_floor revs opms cfg _ (Or.inr rfl)
  · simp [thresholdFilter, floatLt]

/-- Witness for C10: with both recents NaN the zero floors of `cfgA`
are bypassed. -/
theorem C10_witness :
    thresholdFilter [] [] none none cfgA = growthDecision [] [] cfgA :=
  (C10_nan_bypasses_floors [] [] none cfgA).2.2

/-- C6: the ranked output is the accepted entries sorted by market cap
ascending and truncated: its length is exactly
`min resultCount |accepted|`, it is pairwise ordered by market cap,
and the sort is stable — the entries of any fixed market cap appear in
exactly their input order. -/
theorem C6_ranking (results : List ResultEntry) (n : Nat) :
    (rankResults results n).length = min n results.length
    ∧ (rankResults results n).Pairwise capLE
    ∧ ∀ c : ℚ,
        (results.insertionSort capLE).filter (fun e => decide (e.market_cap = c)) =
          results.filter (fun e => decide (e.market_cap = c)) := by
  refine ⟨?_, ?_, ?_⟩
  · rw [rankResults, List.length_take, List.length_insertionSort]
  · rw [rankResults]
    exact List.Pairwise.sublist (List.take_sublist n _)
      (List.sorted_insertionSort capLE results)
  · intro c
    have hpw : (results.filter (fun e => decide (e.market_cap = c))).Pairwise capLE := by
      apply List.pairwise_of_forall_mem_list
      intro x hx y hy
      have hxc := (List.mem_filter.1 hx).2
      have hyc := (List.mem_filter.1 hy).2
      rw [decide_eq_true_iff] at hxc hyc
      rw [capLE, hxc, hyc]
    have hsub : List.Sublist (results.filter (fun e => decide (e.market_cap = c)))
        (results.insertionSort capLE) :=
      List.sublist_insertionSort hpw (List.filter_sublist results)
    have hsub2 : List.Sublist (results.filter (fun e => decide (e.market_cap = c)))
        ((results.insertionSort capLE).filter (fun e => decide (e.market_cap = c))) := by
      have h1 := hsub.filter (fun e => decide (e.market_cap = c))
      simpa using h1
    have hlen : ((results.insertionSort capLE).filter
          (fun e => decide (e.market_cap = c))).length =
        (results.filter (fun e => decide (e.market_cap = c))).length :=
      ((List.perm_insertionSort capLE results).filter _).length_eq
    exact (hsub2.eq_of_length hlen.symm).symm

/-- Witness for C6 at a two-element accepted list and count 1, with the
smaller market cap second in the input. -/
theorem C6_witness :
    (rankResults [⟨"P", none, none, none, none, 50⟩,
        ⟨"Q", none, none, none, none, 20⟩] 1).length = min 1 2 :=
  (C6_ranking [⟨"P", none, none, none, none, 50⟩,
    ⟨"Q", none, none, none, none, 20⟩] 1).1

/-- C8, as stated, is false on the code: a symbol with no market-cap
data and fewer than 2 fundamental records is skipped with the
market-cap reason, not the insufficient-fundamentals reason — the
existence check on line 104 runs before `get_annual_growth`. -/
theorem C8_counterexample :
    ((⟨"X", [], none⟩ : SymbolData).fs.length < 2)
    ∧ processSymbol cfgA ⟨"X", [], none⟩ = .error .marketCapNotFound
    ∧ SkipReason.marketCapNotFound ≠ SkipReason.insufficientFundamentals := by
  decide

/-- C8 (amended): per-symbol stage order of `main`: the market-cap
availability check comes first; then GrowthCalculator, whose NoData
skips with the insufficient-fundamentals reason; then the threshold
filter with its specific reason; the most recent market cap is only
retrieved for symbols that passed all previous stages. -/
theorem C8_pipeline_order (cfg : Config) (s : SymbolData) :
    (s.ms = none → processSymbol cfg s = .error .marketCapNotFound)
    ∧ (∀ ms, s.ms = some ms → get_annual_growth s.fs = .noData →
        processSymbol cfg s = .error .insufficientFundamentals)
    ∧ (∀ ms revs opms rR rM r, s.ms = some ms →
        get_annual_growth s.fs = .ok revs opms rR rM →
        thresholdFilter revs opms rR rM cfg = some r →
        processSymbol cfg s = .error r)
    ∧ (∀ ms revs opms rR rM mc, s.ms = some ms →
        get_annual_growth s.fs = .ok revs opms rR rM →
        thresholdFilter revs opms rR rM cfg = none →
        get_latest_market_cap ms = some mc →
        processSymbol cfg s =
          .ok ⟨s.symbol, revs[0]?, revs[1]?, opms[0]?, opms[1]?, mc⟩) := by
  refine ⟨fun h => ?_, fun ms hms hng => ?_, fun ms revs opms rR rM r hms hng ht => ?_,
    fun ms revs opms rR rM mc hms hng ht hmc => ?_⟩
  · simp [processSymbol, h]
  · simp [processSymbol, hms, hng]
  · simp [processSymbol, hms, hng, ht]
  · simp [processSymbol, hms, hng, ht, hmc]

/-- Witness for C8: a symbol with 4 usable quarters but no market-cap
file is skipped with the market-cap reason. -/
theorem C8_witness :
    processSymbol cfgA ⟨"W", recordsA, none⟩ = .error .marketCapNotFound :=
  (C8_pipeline_order cfgA ⟨"W", recordsA, none⟩).1 rfl

/-- C9: a symbol on which processing fails with a caught exception is
skipped without affecting the others — the run's output equals the run
without that symbol — and every entry of the final ranked output is
the accepted entry of some processed symbol. -/
theorem C9_failure_isolation (cfg : Config) (xs ys : List SymbolData)
    (bad : SymbolData)
    (hb : processSymbol cfg bad = .error .processingError) :
    runScreen cfg (xs ++ bad :: ys) = runScreen cfg (xs ++ ys)
    ∧ ∀ e ∈ runScreen cfg (xs ++ bad :: ys),
        ∃ s ∈ xs ++ bad :: ys, processSymbol cfg s = .ok e := by
  have hacc : acceptedEntries cfg (xs ++ bad :: ys) = acceptedEntries cfg (xs ++ ys) := by
    rw [acceptedEntries, acceptedEntries, List.filterMap_append,
      List.filterMap_append]
    congr 1
    rw [List.filterMap_cons]
    simp [hb, Except.toOption]
  constructor
  · rw [runScreen, runScreen, hacc]
  · intro e he
    rw [runScreen, rankResults] at he
    have h1 := List.mem_of_mem_take he
    rw [List.mem_insertionSort] at h1
    rw [acceptedEntries] at h1
    rcases List.mem_filterMap.1 h1 with ⟨s, hs, hse⟩
    exact ⟨s, hs, (except_toOption_eq_some (processSymbol cfg s) e).1 hse⟩

/-- Witness for C9: the run over just the raising symbol equals the
empty run. -/
theorem C9_witness : runScreen cfgA [symBad] = runScreen cfgA [] :=
  (C9_failure_isolation cfgA [] [] symBad (by decide)).1

end FindGrowthStocks
